import Mathlib

/-!
# Verification of the WebAssembly challenge-bridge (`src/challenge.ts`)

This file is a shallow embedding, in Lean 4, of the host-side bridge
implemented by `VercelWasmChallengeSolver` in `src/challenge.ts`:

* the memory marshaller (`readInt32FromMemory`, `writeInt32ToMemory`,
  `writeInt64ToMemory`, `readStringFromMemory`);
* the object reference table (`storeObject`, `getObject`);
* the synthetic browser environment (`createBrowserEnvironment`);
* the ABI dispatcher handlers (`syscall/js.valueGet`, `valueCall`,
  `valueInvoke`, `valueNew`, `valueLength`, `valueLoadString`);
* the fallback solution synthesis (`generateSolution`,
  `generateHashSegment`) and the heuristic memory scan
  (`searchSolutionInMemory`);
* the challenge orchestration (`solveChallenge`, `defineSolveFunction`,
  `resetAndRunWasm`), with the promise machinery made explicit.

Modelling conventions:

* JavaScript host values are a tagged inductive type `JsValue`.
  Structural equality on `JsValue` models JavaScript `===`
  (value equality on primitives, identity on objects — distinct object
  identities carry distinct `Nat` tags).
* Linear memory is a `List Nat` of bytes; pointers are `Int` so that the
  source's negative-pointer checks are meaningful.
* JavaScript `Number` values that cross the bridge are (within the
  claims' scope) integers and are modelled by `Int`/`Nat`; `BigInt`
  values get the `JsValue.bigNum` tag.
* Host operations that can throw in JavaScript are modelled in
  `Except JsValue`, the thrown value playing the error role; a source
  `try { … } catch { … }` becomes a `match` on that `Except`.
* Asynchronous behaviour (the solution promise) is modelled by an
  explicit one-shot settlement slot with first-settlement-wins
  semantics, driven by an explicit list of events.
-/

namespace Challenge

/-- The JavaScript values handled by the bridge.  Structural equality on
this type models JavaScript `===`: value equality for primitives and
reference identity for objects (distinct identities ↦ distinct tags).
`undefVal` and `nullVal` model `undefined` and `null`. -/
inductive JsValue where
  | undefVal
  | nullVal
  | boolVal (b : Bool)
  | num (n : Int)        -- a JS Number (integral within the claims' scope)
  | bigNum (n : Int)     -- a JS BigInt
  | str (s : String)
  | globalObj            -- globalThis
  | navigatorObj         -- browserEnv.navigator
  | documentObj          -- browserEnv.document
  | cryptoObj            -- browserEnv.crypto (Node's crypto module)
  | webglCtor            -- browserEnv.WebGLRenderingContext (a function)
  | pluginsArr           -- the fixed 5-entry navigator.plugins array
  | fnVal (tag : Nat)    -- other function values, by identity
  | errObj (msg : String)  -- an Error (or TypeError/RangeError) object
  | obj (tag : Nat)      -- other objects, by identity
  deriving DecidableEq, Repr

/-- The fixed user-agent constant of the synthetic navigator
(`createBrowserEnvironment`, src/challenge.ts line 89). -/
def userAgentConst : String :=
  "Mozilla/5.0 (Windows NT 10.0; Win64; x64) AppleWebKit/537.36 (KHTML, like Gecko) Chrome/91.0.4472.124 Safari/537.36"

/-! ## Memory marshaller (src/challenge.ts lines 1033-1103) -/

/-- Model of `readInt32FromMemory` (lines 1033-1048): bounds-checked little-endian
32-bit read; the trailing `>>> 0` makes the result unsigned, so the
result is a `Nat` below `2^32`.  Out-of-range pointers yield `0`. -/
def readInt32FromMemory (memory : List Nat) (ptr : Int) : Nat :=
  if ptr < 0 ∨ ptr + 3 ≥ (memory.length : Int) then 0
  else
    let p := ptr.toNat
    memory.getD p 0 + memory.getD (p+1) 0 * 256 +
      memory.getD (p+2) 0 * 65536 + memory.getD (p+3) 0 * 16777216

/-- Model of `writeInt32ToMemory` (lines 1056-1073): bounds-checked little-endian
32-bit store of the value's unsigned-32-bit representation;
out-of-range pointers leave the buffer unchanged. -/
def writeInt32ToMemory (memory : List Nat) (ptr : Int) (value : Int) : List Nat :=
  if ptr < 0 ∨ ptr + 3 ≥ (memory.length : Int) then memory
  else
    let p := ptr.toNat
    let v := (value % (4294967296 : Int)).toNat
    ((((memory.set p (v % 256)).set (p+1) (v / 256 % 256)).set
        (p+2) (v / 65536 % 256)).set (p+3) (v / 16777216 % 256))

/-- Model of `writeValueToMemory` (lines 962-975): coerce to a number and delegate
to the 32-bit write. -/
def writeValueToMemory (memory : List Nat) (ptr : Int) (value : Int) : List Nat :=
  writeInt32ToMemory memory ptr value

/-- Model of `writeInt64ToMemory` (lines 1081-1095): split the 64-bit value into
low and high 32-bit words (`value & 0xFFFFFFFFn`, `value >> 32n`) and
write each through the independently bounds-checked 32-bit write. -/
def writeInt64ToMemory (memory : List Nat) (ptr : Int) (value : Int) : List Nat :=
  let lowValue : Int := value % 4294967296
  let highValue : Int := value / 4294967296
  writeInt32ToMemory (writeInt32ToMemory memory ptr lowValue) (ptr + 4) highValue

/-- A raw JavaScript typed-array element store `memory[i] = v`:
out-of-range indices are silently ignored, stored values are reduced
modulo 256. -/
def memSetByte (m : List Nat) (i : Int) (v : Nat) : List Nat :=
  if 0 ≤ i ∧ i < (m.length : Int) then m.set i.toNat (v % 256) else m

/-- The manual four-byte little-endian store pattern
`memory[p] = v & 0xFF; memory[p+1] = (v >> 8) & 0xFF; …` that several
handlers use instead of `writeInt32ToMemory`. -/
def rawWrite32 (m : List Nat) (p : Int) (v : Nat) : List Nat :=
  let w := v % 4294967296
  memSetByte (memSetByte (memSetByte (memSetByte m p (w % 256))
    (p+1) (w / 256 % 256)) (p+2) (w / 65536 % 256)) (p+3) (w / 16777216 % 256)

/-- JavaScript `TypedArray.prototype.slice(start, end)` index clamping:
negative indices count from the end, and both endpoints are clamped to
`[0, length]`. -/
def jsSlice (m : List Nat) (start stop : Int) : List Nat :=
  let n : Int := m.length
  let s : Int := if start < 0 then max (n + start) 0 else min start n
  let e : Int := if stop < 0 then max (n + stop) 0 else min stop n
  (m.drop s.toNat).take (e - s).toNat

/-! ### UTF-8 decoding (the solver's `TextDecoder`)

`utf8DecodeFuel` decodes a byte list as WHATWG UTF-8: well-formed
sequences become the encoded code point, ill-formed bytes (stray
continuation bytes, overlong forms, surrogates, out-of-range leads)
become U+FFFD replacement characters, mirroring `TextDecoder` in
non-fatal mode. -/

/-- U+FFFD. -/
def replChar : Char := Char.ofNat 0xFFFD

/-- Is `b` a UTF-8 continuation byte (`0x80 ≤ b < 0xC0`)? -/
def isCont (b : Nat) : Bool := 128 ≤ b ∧ b < 192

def utf8DecodeFuel : Nat → List Nat → List Char
  | 0, _ => []
  | _ + 1, [] => []
  | fuel + 1, b :: rest =>
    if b < 0x80 then Char.ofNat b :: utf8DecodeFuel fuel rest
    else if b < 0xC2 then
      -- stray continuation byte or overlong 2-byte lead (0xC0/0xC1)
      replChar :: utf8DecodeFuel fuel rest
    else if b < 0xE0 then
      match rest with
      | b2 :: rest2 =>
        if isCont b2 then
          Char.ofNat ((b - 0xC0) * 64 + (b2 - 0x80)) :: utf8DecodeFuel fuel rest2
        else replChar :: utf8DecodeFuel fuel rest
      | [] => [replChar]
    else if b < 0xF0 then
      match rest with
      | b2 :: b3 :: rest3 =>
        if (isCont b2 && isCont b3 &&
            -- reject overlong forms (E0 80-9F) and surrogates (ED A0-BF)
            !(b = 0xE0 && b2 < 0xA0) && !(b = 0xED && b2 ≥ 0xA0)) then
          Char.ofNat ((b - 0xE0) * 4096 + (b2 - 0x80) * 64 + (b3 - 0x80)) ::
            utf8DecodeFuel fuel rest3
        else replChar :: utf8DecodeFuel fuel rest
      | _ => [replChar]
    else if b < 0xF5 then
      match rest with
      | b2 :: b3 :: b4 :: rest4 =>
        if (isCont b2 && isCont b3 && isCont b4 &&
            !(b = 0xF0 && b2 < 0x90) && !(b = 0xF4 && b2 ≥ 0x90)) then
          Char.ofNat ((b - 0xF0) * 262144 + (b2 - 0x80) * 4096 +
              (b3 - 0x80) * 64 + (b4 - 0x80)) :: utf8DecodeFuel fuel rest4
        else replChar :: utf8DecodeFuel fuel rest
      | _ => [replChar]
    else replChar :: utf8DecodeFuel fuel rest

/-- Model of `TextDecoder().decode` on a byte list. -/
def utf8Decode (bs : List Nat) : String := ⟨utf8DecodeFuel bs.length bs⟩

/-- The UTF-8 bytes of one character. -/
def utf8EncodeChar (c : Char) : List Nat :=
  let n := c.toNat
  if n < 0x80 then [n]
  else if n < 0x800 then [0xC0 + n / 64, 0x80 + n % 64]
  else if n < 0x10000 then
    [0xE0 + n / 4096, 0x80 + n / 64 % 64, 0x80 + n % 64]
  else
    [0xF0 + n / 262144, 0x80 + n / 4096 % 64, 0x80 + n / 64 % 64,
     0x80 + n % 64]

/-- Model of `TextEncoder().encode` on a string: its UTF-8 bytes. -/
def utf8Encode (s : String) : List Nat := (s.data.map utf8EncodeChar).flatten

/-- Model of `readStringFromMemory` (lines 1100-1103): `memory.slice(ptr, ptr+len)`
(which clamps, never traps) followed by UTF-8 decoding. -/
def readStringFromMemory (memory : List Nat) (ptr len : Int) : String :=
  utf8Decode (jsSlice memory ptr (ptr + len))

end Challenge

namespace Challenge

/-! ## One-shot promise slot

`defineSolveFunction` (src/challenge.ts lines 1279-1312) arms a Promise
and registers `globalThis.Solve`, which settles it.  A Promise settles
at most once: later `resolve`/`reject` calls are no-ops. -/

/-- The settlement state of the solution promise. -/
inductive Settled where
  | unsettled
  | resolved (s : String)
  | rejected (msg : String)
  deriving DecidableEq, Repr

/-- Model of `resolve(s)`: first settlement wins. -/
def settleResolve : Settled → String → Settled
  | .unsettled, s => .resolved s
  | p, _ => p

/-- Model of `reject(new Error(msg))`: first settlement wins. -/
def settleReject : Settled → String → Settled
  | .unsettled, m => .rejected m
  | p, _ => p

/-- The message of the 30-second timeout rejection (line 1282). -/
def timeoutMsg : String := "WebAssembly 解决挑战超时"

/-- The message of the empty-solution rejection (line 1295). -/
def emptySolutionMsg : String := "WebAssembly 返回的解决方案为空"

/-! ## Solver state

The mutable state of a `VercelWasmChallengeSolver` together with the
pieces of `globalThis` the bridge reads and writes
(`vercelChallengeToken`, `Solve`) and the solution promise. -/

deriving instance DecidableEq for Except

structure SolverState where
  /-- whether `initialize` has installed a wasm instance
      (`this.wasmInstance !== null`) -/
  wasmInitialized : Bool
  /-- the instance's linear memory, as bytes -/
  memory : List Nat
  /-- Model of `this.objectRefs`, in insertion order (a JS `Map` iterates in
      insertion order) -/
  objectRefs : List (Nat × JsValue)
  /-- Model of `this.nextRefId` -/
  nextRefId : Nat
  /-- Model of `globalThis.vercelChallengeToken` (absent before a session starts) -/
  globalToken : Option String
  /-- whether `globalThis.Solve` has been defined by
      `defineSolveFunction` -/
  solveDefined : Bool
  /-- the solution promise of the current session -/
  promise : Settled
  deriving DecidableEq, Repr

/-- The state right after the constructor ran (lines 62-81):
empty reference table, `nextRefId = 6`. -/
def initialState (memory : List Nat) : SolverState :=
  { wasmInitialized := true, memory := memory, objectRefs := [],
    nextRefId := 6, globalToken := none, solveDefined := false,
    promise := .unsettled }

/-! ## Object reference table (src/challenge.ts lines 982-1025) -/

/-- Model of `storeObject` (lines 982-1004): the five browser singletons and
`undefined`/`null`/`globalThis` map to their reserved ids `0..5`
without consulting the table; otherwise the table is scanned for a
`===`-equal entry, and on a miss `nextRefId` is allocated. -/
def storeObject (st : SolverState) (v : JsValue) : Nat × SolverState :=
  if v = .navigatorObj then (2, st)
  else if v = .documentObj then (3, st)
  else if v = .cryptoObj then (4, st)
  else if v = .webglCtor then (5, st)
  else if v = .undefVal ∨ v = .nullVal then (0, st)
  else if v = .globalObj then (1, st)
  else
    match st.objectRefs.find? (fun p => p.2 = v) with
    | some p => (p.1, st)
    | none =>
      (st.nextRefId,
       { st with objectRefs := st.objectRefs ++ [(st.nextRefId, v)],
                 nextRefId := st.nextRefId + 1 })

/-- Model of `getObject` (lines 1011-1025): reserved ids resolve directly; other
ids are looked up in the table, a miss yielding `undefined`
(`Map.get` on a missing key). -/
def getObject (st : SolverState) (id : Nat) : JsValue :=
  if id = 0 then .undefVal
  else if id = 1 then .globalObj
  else if id = 2 then .navigatorObj
  else if id = 3 then .documentObj
  else if id = 4 then .cryptoObj
  else if id = 5 then .webglCtor
  else
    match st.objectRefs.find? (fun p => p.1 = id) with
    | some p => p.2
    | none => .undefVal

/-- The values `storeObject` maps to a reserved id without scanning. -/
def isReservedValue : JsValue → Bool
  | .undefVal | .nullVal | .globalObj | .navigatorObj
  | .documentObj | .cryptoObj | .webglCtor => true
  | _ => false

/-- Well-formedness of the reference table, established by the
constructor and preserved by `storeObject`: dynamic ids are `≥ 6`,
below the allocation counter, and pairwise distinct. -/
def TableWF (st : SolverState) : Prop :=
  6 ≤ st.nextRefId ∧
  (∀ p ∈ st.objectRefs, 6 ≤ p.1 ∧ p.1 < st.nextRefId) ∧
  (st.objectRefs.map Prod.fst).Nodup

instance (st : SolverState) : Decidable (TableWF st) := by
  unfold TableWF; infer_instance

end Challenge

namespace Challenge

/-! ## Fallback solution synthesis
(src/challenge.ts lines 1445-1494: `generateSolution`,
`generateHashSegment`) -/

/-- The UTF-16 code units of a character (JS strings are UTF-16;
`charCodeAt`/`length` operate on code units). -/
def utf16CodeUnitsOfChar (c : Char) : List Nat :=
  let n := c.toNat
  if n < 0x10000 then [n]
  else [0xD800 + (n - 0x10000) / 0x400, 0xDC00 + (n - 0x10000) % 0x400]

/-- The UTF-16 code units of a string; its length is the JS
`String.prototype.length`. -/
def utf16CodeUnits (s : String) : List Nat :=
  (s.data.map utf16CodeUnitsOfChar).flatten

/-- Model of `Math.imul`: 32-bit integer multiplication.  Operands and result are
kept in their unsigned-32-bit representations. -/
def imul32 (a b : Nat) : Nat := a * b % 4294967296

/-- The lowercase hexadecimal digits of `n`, least significant first,
with explicit fuel (any fuel `> log16 n` gives all digits). -/
def toHexRevFuel : Nat → Nat → List Char
  | 0, _ => []
  | fuel + 1, n =>
    if n < 16 then [Nat.digitChar n]
    else Nat.digitChar (n % 16) :: toHexRevFuel fuel (n / 16)

/-- The lowercase hexadecimal digits of `n`, least significant first
(the reversal of `Number.prototype.toString(16)`); `n + 1` fuel always
suffices since the argument at least halves each step. -/
def toHexRev (n : Nat) : List Char := toHexRevFuel (n + 1) n

/-- Model of `Number.prototype.toString(16)` (for non-negative integers). -/
def toHexString (n : Nat) : List Char := (toHexRev n).reverse

/-- Model of `String.prototype.padStart(len, c)` on a char list. -/
def padStart (l : List Char) (len : Nat) (c : Char) : List Char :=
  List.replicate (len - l.length) c ++ l

/-- One iteration of the block loop in `generateHashSegment`
(lines 1470-1490): the two-state `Math.imul`-based string hash of
`seedPart = input + i`, producing
`(4294967296 * (2097151 & h2) + (h1 >>> 0)).toString(16)`.
All 32-bit quantities are carried in their unsigned representations
(bitwise ops and `Math.imul` agree on those). -/
def hashBlock (input : String) (i : Nat) : List Char :=
  let seedPart := input ++ toString i
  let units := utf16CodeUnits seedPart
  let len := units.length
  let h1_0 : Nat := Nat.xor 0xdeadbeef len % 4294967296
  let h2_0 : Nat := Nat.xor 0x41c6ce57 len % 4294967296
  let hs := units.foldl
    (fun (h : Nat × Nat) ch =>
      (imul32 (Nat.xor h.1 ch) 2654435761, imul32 (Nat.xor h.2 ch) 1597334677))
    (h1_0, h2_0)
  -- the final avalanche: note the second line reads the *updated* h1
  let h1 := Nat.xor (imul32 (Nat.xor hs.1 (hs.1 / 65536)) 2246822507)
                    (imul32 (Nat.xor hs.2 (hs.2 / 8192)) 3266489909) % 4294967296
  let h2 := Nat.xor (imul32 (Nat.xor hs.2 (hs.2 / 65536)) 2246822507)
                    (imul32 (Nat.xor h1 (h1 / 8192)) 3266489909) % 4294967296
  toHexString (4294967296 * (h2 % 2097152) + h1)

/-- Model of `generateHashSegment` (lines 1466-1494): concatenate
`⌈length/8⌉` block hashes, truncate to `length` characters and
zero-pad on the left to exactly `length`. -/
def generateHashSegment (input : String) (length : Nat) : String :=
  let result := (((List.range ((length + 7) / 8)).map (hashBlock input))).flatten
  ⟨padStart (result.take length) length '0'⟩

/-- Model of `generateSolution` (lines 1445-1458): the deterministic fallback
`"1.0;" + hash1 + ";" + hash2 + ";" + hash3` over three salted seeds. -/
def generateSolution (token : String) : String :=
  let seed := "monad_challenge_seed_" ++ token
  let hash1 := generateHashSegment (seed ++ "part1") 16
  let hash2 := generateHashSegment (seed ++ "part2") 16
  let hash3 := generateHashSegment (seed ++ "part3") 16
  "1.0;" ++ hash1 ++ ";" ++ hash2 ++ ";" ++ hash3

/-! ## The solution grammar
(`/^1\.0;[a-zA-Z0-9]{16};[a-zA-Z0-9]{16};[a-zA-Z0-9]{16}$/`,
src/challenge.ts line 1422) -/

/-- The character class of the regex, `[a-zA-Z0-9]`. -/
def isAlnumChar (c : Char) : Bool :=
  ('a' ≤ c ∧ c ≤ 'z') ∨ ('A' ≤ c ∧ c ≤ 'Z') ∨ ('0' ≤ c ∧ c ≤ '9')

/-- Consume exactly `n` alphanumeric characters, returning the rest. -/
def alnumRun : Nat → List Char → Option (List Char)
  | 0, rest => some rest
  | _ + 1, [] => none
  | n + 1, c :: rest => if isAlnumChar c then alnumRun n rest else none

/-- Consume 16 alphanumerics, then hand the rest to the continuation. -/
def seg16Then (k : List Char → Bool) (l : List Char) : Bool :=
  match alnumRun 16 l with
  | some r => k r
  | none => false

/-- The anchored solution-grammar regular expression: `1.0;`, then three
16-character alphanumeric segments separated by `;`, then the end. -/
def matchesSolutionGrammar (s : String) : Bool :=
  match s.data with
  | c1 :: c2 :: c3 :: c4 :: rest =>
    c1 == '1' && c2 == '.' && c3 == '0' && c4 == ';' &&
    seg16Then (fun r1 =>
      match r1 with
      | c5 :: r2 =>
        c5 == ';' && seg16Then (fun r3 =>
          match r3 with
          | c6 :: r4 =>
            c6 == ';' && seg16Then (fun r5 => r5.isEmpty) r4
          | [] => false) r2
      | [] => false) rest
  | _ => false

/-! ## Heuristic memory scan
(`searchSolutionInMemory`, src/challenge.ts lines 1389-1438) -/

/-- The attempt at scan position `i`: match the `"1.0;"` pattern, read
the run up to a NUL byte (at most 100 bytes), and accept it only if the
decoded string matches the solution grammar. -/
def scanCandidate (memory : List Nat) (i : Nat) : Option String :=
  if (memory.drop i).take 4 = [0x31, 0x2E, 0x30, 0x3B] then
    let run := ((memory.drop i).takeWhile (fun b => b ≠ 0)).take 100
    if 0 < run.length then
      let s := utf8Decode run
      if matchesSolutionGrammar s then some s else none
    else none
  else none

/-- Model of `searchSolutionInMemory`: the first scan position
`i < memory.length - 4 - 50` whose candidate matches wins. -/
def searchSolutionInMemory (memory : List Nat) : Option String :=
  (List.range (memory.length - 54)).findSome? (scanCandidate memory)

end Challenge

namespace Challenge

/-! ## Synthetic browser environment and reflection
(`createBrowserEnvironment`, src/challenge.ts lines 86-152)

`reflectGet` models `Reflect.get(target, prop)` on the values the
bridge handles.  `Reflect.get` on a primitive target throws a
`TypeError`; on the modelled objects it returns the object's fixed
properties.  Properties outside the modelled surface (e.g. arbitrary
members of Node's `crypto` module, or guest-written globals) are beyond
the claims' scope and are modelled as absent. -/

/-- Identity tags for the named function values of the program. -/
def solveFnTag : Nat := 0        -- globalThis.Solve
def createElementTag : Nat := 1  -- document.createElement
def getRandomValuesTag : Nat := 2
def gFnTag : Nat := 10           -- globalThis.g
def ttFnTag : Nat := 11          -- globalThis.tt
def tqFnTag : Nat := 12          -- globalThis.tQ

/-- Identity tags of the five plugin entries of `navigator.plugins`. -/
def pluginTag (i : Nat) : Nat := 100 + i

/-- Model of `globalThis.vercelChallengeToken` as a JS value. -/
def jsValueOfToken : Option String → JsValue
  | some t => .str t
  | none => .undefVal

/-- Model of `Reflect.get(target, prop)`.  Throws (models `TypeError`) when the
target is a primitive. -/
def reflectGet (st : SolverState) (target : JsValue) (prop : String) :
    Except JsValue JsValue :=
  match target with
  | .boolVal _ | .num _ | .bigNum _ | .str _ =>
      .error (.errObj "TypeError: Reflect.get called on non-object")
  | .undefVal | .nullVal =>
      .error (.errObj "TypeError: Reflect.get called on non-object")
  | .globalObj =>
      -- globals installed by `initialize` (self, g, tt, tQ) and by
      -- `solveChallenge` (vercelChallengeToken, Solve)
      .ok (if prop = "globalThis" ∨ prop = "self" then .globalObj
        else if prop = "vercelChallengeToken" then jsValueOfToken st.globalToken
        else if prop = "Solve" then
          (if st.solveDefined then .fnVal solveFnTag else .undefVal)
        else if prop = "g" then .fnVal gFnTag
        else if prop = "tt" then .fnVal ttFnTag
        else if prop = "tQ" then .fnVal tqFnTag
        else .undefVal)
  | .navigatorObj =>
      .ok (if prop = "userAgent" then .str userAgentConst
        else if prop = "webdriver" then .boolVal false
        else if prop = "plugins" then .pluginsArr
        else .undefVal)
  | .documentObj =>
      .ok (if prop = "createElement" then .fnVal createElementTag else .undefVal)
  | .cryptoObj =>
      .ok (if prop = "getRandomValues" then .fnVal getRandomValuesTag
        else .undefVal)
  | .pluginsArr =>
      .ok (if prop = "length" then .num 5
        else if prop = "0" then .obj (pluginTag 0)
        else if prop = "1" then .obj (pluginTag 1)
        else if prop = "2" then .obj (pluginTag 2)
        else if prop = "3" then .obj (pluginTag 3)
        else if prop = "4" then .obj (pluginTag 4)
        else .undefVal)
  | .errObj msg => .ok (if prop = "message" then .str msg else .undefVal)
  | .webglCtor | .fnVal _ | .obj _ => .ok .undefVal

/-- Model of `typeof v === 'function'`. -/
def isFunction : JsValue → Bool
  | .webglCtor | .fnVal _ => true
  | _ => false

/-- The BigInt narrowing several handlers apply to results
(`if (typeof value === 'bigint') value = Number(value)`). -/
def narrowBigInt : JsValue → JsValue
  | .bigNum n => .num n
  | v => v

/-- JavaScript `String(v)` for the modelled values (object cases use the
default `toString` behaviours). -/
def jsToString : JsValue → String
  | .undefVal => "undefined"
  | .nullVal => "null"
  | .boolVal b => if b then "true" else "false"
  | .num n => toString n
  | .bigNum n => toString n
  | .str s => s
  | .errObj msg => msg
  | _ => "[object Object]"

/-! ## ABI dispatcher handlers -/

/-- The stack pointer as delivered by the wasm runtime: either a JS
number or (for an i64-typed parameter) a BigInt. -/
inductive SpArg where
  | num (n : Int)
  | big (b : Int)
  deriving DecidableEq, Repr

/-- The constant `Number.MAX_SAFE_INTEGER`. -/
def maxSafeInteger : Int := 9007199254740991

/-- Model of `syscall/js.valueGet` (src/challenge.ts lines 270-418), the branch
for an in-`Number`-range stack pointer `spNum`:
read `v_addr`, `p_ptr`, `p_len` from the frame, resolve the receiver
(receiver id 0 special-cases the four browser-environment names, all
other names falling back to `globalThis`), perform
`Reflect.get(target, prop)`, store the (BigInt-narrowed) result, and
manually write the id at `spNum + 32`.  A thrown reflection error is
caught and degrades to writing id `0`. -/
def valueGetAt (st : SolverState) (spNum : Int) : SolverState :=
  let m := st.memory
  if spNum < 0 ∨ spNum ≥ (m.length : Int) - 40 then st
  else
    let v_addr := readInt32FromMemory m (spNum + 8)
    let p_ptr := readInt32FromMemory m (spNum + 16)
    let p_len := readInt32FromMemory m (spNum + 24)
    let ret_ptr := spNum + 32
    let prop :=
      if (p_ptr : Int) + (p_len : Int) ≤ (m.length : Int)
      then readStringFromMemory m p_ptr p_len
      else ""
    let target : JsValue :=
      if v_addr = 0 then
        if prop = "navigator" then .navigatorObj
        else if prop = "document" then .documentObj
        else if prop = "crypto" then .cryptoObj
        else if prop = "WebGLRenderingContext" then .webglCtor
        -- '' / 'globalThis' / 'window' alias to globalThis, as does the
        -- default case
        else .globalObj
      else getObject st v_addr
    match (if target = .nullVal ∨ target = .undefVal then Except.ok .undefVal
           else reflectGet st target prop) with
    | .ok value =>
      let value := narrowBigInt value
      let (refId, st') := storeObject st value
      if ret_ptr < 0 ∨ ret_ptr + 3 ≥ (m.length : Int) then st'
      else { st' with memory := rawWrite32 st'.memory ret_ptr refId }
    | .error _ =>
      -- catch block (lines 400-417): write id 0 manually, guarded by
      -- `spNum + 35 < memory.length`
      { st with memory :=
          if spNum + 35 < (m.length : Int) then rawWrite32 m (spNum + 32) 0
          else m }

/-- Model of `syscall/js.valueGet`, entry point: a BigInt stack pointer beyond
`Number.MAX_SAFE_INTEGER` takes the heuristic branch — read
`globalThis.vercelChallengeToken`, store it, and write the id at the
fixed offset `memory.length - 128`; otherwise a BigInt pointer is
reduced `sp % MAX_SAFE_INTEGER` (JS BigInt `%` truncates toward zero)
and handled like a number. -/
def valueGet (st : SolverState) (sp : SpArg) : SolverState :=
  match sp with
  | .big b =>
    if b > maxSafeInteger then
      let value := jsValueOfToken st.globalToken
      let (refId, st') := storeObject st value
      let safeOffset : Int := (st.memory.length : Int) - 128
      { st' with memory := rawWrite32 st'.memory safeOffset refId }
    else valueGetAt st (Int.tmod b maxSafeInteger)
  | .num n => valueGetAt st n

end Challenge

namespace Challenge

/-- Model of `globalThis.Solve` as defined by `defineSolveFunction`
(src/challenge.ts lines 1286-1310): a `null`/`undefined` argument
rejects the promise (and returns `''`); any other argument resolves it
with `String(arg)` (and returns that string).  Settlement is
first-wins. -/
def solveCallback (p : Settled) (arg : Option String) : Settled × String :=
  match arg with
  | none => (settleReject p emptySolutionMsg, "")
  | some s => (settleResolve p s, s)

/-- The common large-BigInt-pointer heuristic of `syscall/js.valueCall`
(lines 452-476) and `syscall/js.valueInvoke` (lines 759-783):
synthesize `generateSolution(globalThis.vercelChallengeToken)` (an
absent token is coerced to the string `"undefined"` by the `+` inside
`generateSolution`) and, if `globalThis.Solve` is defined, invoke it. -/
def bigBranchSolve (st : SolverState) : SolverState :=
  let token := match st.globalToken with | some t => t | none => "undefined"
  let solution := generateSolution token
  if st.solveDefined then
    { st with promise := (solveCallback st.promise (some solution)).1 }
  else st

/-- An application oracle: the outcome of `Reflect.apply(fn, this, args)`
for host function values whose behaviour is not fixed by the bridge
itself (`.ok` = returned value, `.error` = thrown value). -/
def ApplyOracle := JsValue → JsValue → List JsValue → Except JsValue JsValue

/-- Model of `syscall/js.valueCall` (lines 445-615), in-range-pointer branch:
read `fn_id`, `this_id`, the argument id array (stride 8) and count,
apply the resolved function, then write the exception flag at
`spNum + 40` and the (BigInt-narrowed) result id — or, on a throw, the
flag `1` and the stored error's id — at `spNum + 32`. -/
def valueCallAt (st : SolverState) (spNum : Int) (applyFn : ApplyOracle) :
    SolverState :=
  let m := st.memory
  if spNum < 0 ∨ spNum ≥ (m.length : Int) - 48 then st
  else
    let fn_id := readInt32FromMemory m (spNum + 8)
    let this_id := readInt32FromMemory m (spNum + 16)
    let args_ptr := readInt32FromMemory m (spNum + 24)
    let args_len := readInt32FromMemory m (spNum + 28)
    let ret_ptr := spNum + 32
    let exc_ptr := spNum + 40
    let fn := getObject st fn_id
    let thisObj := getObject st this_id
    let args : List JsValue :=
      if (args_ptr : Int) + (args_len : Int) * 8 ≤ (m.length : Int)
      then (List.range args_len).map
        (fun i => getObject st (readInt32FromMemory m ((args_ptr : Int) + 8 * i)))
      else []
    match (if isFunction fn
           then (applyFn fn thisObj args).map narrowBigInt
           else .error (.errObj "不是函数")) with
    | .ok result =>
      let m1 := if 0 ≤ exc_ptr ∧ exc_ptr < (m.length : Int)
                then memSetByte m exc_ptr 0 else m
      let (refId, st') := storeObject st result
      { st' with memory :=
          if 0 ≤ ret_ptr ∧ ret_ptr + 3 < (m.length : Int)
          then rawWrite32 m1 ret_ptr refId else m1 }
    | .error e =>
      let m1 := if 0 ≤ exc_ptr ∧ exc_ptr < (m.length : Int)
                then memSetByte m exc_ptr 1 else m
      let (errId, st') := storeObject st e
      { st' with memory :=
          if 0 ≤ ret_ptr ∧ ret_ptr + 3 < (m.length : Int)
          then rawWrite32 m1 ret_ptr errId else m1 }

/-- Model of `syscall/js.valueCall`, entry point (same pointer normalization as
`valueGet`; the oversized-BigInt branch synthesizes a solution and
calls `Solve` instead of touching the frame). -/
def valueCall (st : SolverState) (sp : SpArg) (applyFn : ApplyOracle) :
    SolverState :=
  match sp with
  | .big b =>
    if b > maxSafeInteger then bigBranchSolve st
    else valueCallAt st (Int.tmod b maxSafeInteger) applyFn
  | .num n => valueCallAt st n applyFn

/-- Model of `syscall/js.valueInvoke` (lines 752-919), in-range-pointer branch:
like `valueCall` but without a `this` binding and with offsets
`fn sp+8, args sp+16/+20, ret sp+24, exc sp+32`. -/
def valueInvokeAt (st : SolverState) (spNum : Int) (applyFn : ApplyOracle) :
    SolverState :=
  let m := st.memory
  if spNum < 0 ∨ spNum ≥ (m.length : Int) - 40 then st
  else
    let fn_id := readInt32FromMemory m (spNum + 8)
    let args_ptr := readInt32FromMemory m (spNum + 16)
    let args_len := readInt32FromMemory m (spNum + 20)
    let ret_ptr := spNum + 24
    let exc_ptr := spNum + 32
    let fn := getObject st fn_id
    let args : List JsValue :=
      if (args_ptr : Int) + (args_len : Int) * 8 ≤ (m.length : Int)
      then (List.range args_len).map
        (fun i => getObject st (readInt32FromMemory m ((args_ptr : Int) + 8 * i)))
      else []
    match (if isFunction fn
           then (applyFn fn .undefVal args).map narrowBigInt
           else .error (.errObj "不是函数")) with
    | .ok result =>
      let m1 := if 0 ≤ exc_ptr ∧ exc_ptr < (m.length : Int)
                then memSetByte m exc_ptr 0 else m
      let (refId, st') := storeObject st result
      { st' with memory :=
          if 0 ≤ ret_ptr ∧ ret_ptr + 3 < (m.length : Int)
          then rawWrite32 m1 ret_ptr refId else m1 }
    | .error e =>
      let m1 := if 0 ≤ exc_ptr ∧ exc_ptr < (m.length : Int)
                then memSetByte m exc_ptr 1 else m
      let (errId, st') := storeObject st e
      { st' with memory :=
          if 0 ≤ ret_ptr ∧ ret_ptr + 3 < (m.length : Int)
          then rawWrite32 m1 ret_ptr errId else m1 }

/-- Model of `syscall/js.valueInvoke`, entry point. -/
def valueInvoke (st : SolverState) (sp : SpArg) (applyFn : ApplyOracle) :
    SolverState :=
  match sp with
  | .big b =>
    if b > maxSafeInteger then bigBranchSolve st
    else valueInvokeAt st (Int.tmod b maxSafeInteger) applyFn
  | .num n => valueInvokeAt st n applyFn

end Challenge

namespace Challenge

/-- A construction oracle: the outcome of `Reflect.construct(ctor, args)`
(`.ok` = constructed object, `.error` = thrown value). -/
def ConstructOracle := JsValue → List JsValue → Except JsValue JsValue

/-- The argument list `syscall/js.valueNew` collects (ids at stride 8
from `args_ptr`; `readInt32FromMemory` reads out-of-range slots as 0). -/
def valueNewArgs (st : SolverState) (sp : Int) : List JsValue :=
  let m := st.memory
  let args_ptr := readInt32FromMemory m (sp + 16)
  let args_len := readInt32FromMemory m (sp + 20)
  (List.range args_len).map
    (fun i => getObject st (readInt32FromMemory m ((args_ptr : Int) + 8 * i)))

/-- The construction attempt inside `syscall/js.valueNew`
(lines 638-644): `Reflect.construct` when the resolved value is a
function, otherwise a thrown `不是构造函数` error. -/
def valueNewAttempt (st : SolverState) (sp : Int)
    (construct : ConstructOracle) : Except JsValue JsValue :=
  let ctor := getObject st (readInt32FromMemory st.memory (sp + 8))
  if isFunction ctor then construct ctor (valueNewArgs st sp)
  else .error (.errObj "不是构造函数")

/-- Model of `syscall/js.valueNew` (src/challenge.ts lines 617-657): on success
write flag `0` at `sp+32` (raw store) and the stored result id at
`sp+24`; on a throw write flag `1` and the stored error's id.  The
catch blocks keep every failure inside the handler. -/
def valueNew (st : SolverState) (sp : Int) (construct : ConstructOracle) :
    SolverState :=
  let m := st.memory
  let ret_ptr := sp + 24
  let exc_ptr := sp + 32
  match valueNewAttempt st sp construct with
  | .ok result =>
    let (refId, st') := storeObject st result
    { st' with memory :=
        writeValueToMemory (memSetByte m exc_ptr 0) ret_ptr (refId : Int) }
  | .error e =>
    let (errId, st') := storeObject st e
    { st' with memory :=
        writeValueToMemory (memSetByte m exc_ptr 1) ret_ptr (errId : Int) }

/-- Model of `'length' in obj`: throws a `TypeError` when the operand is a
primitive (including strings); otherwise reports whether the object has
a `length` property. -/
def lengthIn : JsValue → Except JsValue Bool
  | .str _ | .num _ | .bigNum _ | .boolVal _ =>
      .error (.errObj "TypeError: Cannot use 'in' operator")
  | .pluginsArr => .ok true
  | .webglCtor => .ok true     -- functions have a `length` (arity)
  | .fnVal _ => .ok true
  | _ => .ok false

/-- The `length` property of the values for which `lengthIn` is true
(`Function.prototype.length` is the declared arity). -/
def lengthVal : JsValue → Int
  | .pluginsArr => 5
  | .webglCtor => 0            -- `function () {}`
  | .fnVal tag =>
      if tag = solveFnTag ∨ tag = createElementTag ∨ tag = getRandomValuesTag
      then 1 else 0
  | _ => 0

/-- The body of `syscall/js.valueLength` (lines 659-678) up to and
including the 64-bit write; the `'length' in obj` test is the only
throwing step. -/
def valueLengthBody (st : SolverState) (sp : Int) :
    Except JsValue (List Nat) := do
  let obj := getObject st (readInt32FromMemory st.memory (sp + 8))
  let len : Int ←
    if obj = .nullVal ∨ obj = .undefVal then pure 0
    else do
      let has ← lengthIn obj
      pure (if has then lengthVal obj else 0)
  pure (writeInt64ToMemory st.memory (sp + 16) len)

/-- Model of `syscall/js.valueLength`: a thrown error is caught and degrades to
writing the 64-bit length `0`. -/
def valueLength (st : SolverState) (sp : Int) : SolverState :=
  match valueLengthBody st sp with
  | .ok m => { st with memory := m }
  | .error _ => { st with memory := writeInt64ToMemory st.memory (sp + 16) 0 }

/-- JavaScript `TypedArray.prototype.set(src, offset)`: unlike element
stores, this throws a `RangeError` when the source does not fit. -/
def memSet (m : List Nat) (src : List Nat) (ptr : Int) :
    Except JsValue (List Nat) :=
  if ptr < 0 ∨ ptr + (src.length : Int) > (m.length : Int) then
    .error (.errObj "RangeError: offset is out of bounds")
  else .ok (m.take ptr.toNat ++ src ++ m.drop (ptr.toNat + src.length))

/-- The body of `syscall/js.valueLoadString` (lines 701-720): coerce the
resolved value with `String(…)`, UTF-8-encode it, and copy
`min(bytes.length, len)` bytes to `ptr` — the `memory.set` throwing
when the destination range does not fit. -/
def valueLoadStringBody (st : SolverState) (sp : Int) :
    Except JsValue (List Nat) := do
  let m := st.memory
  let str := jsToString (getObject st (readInt32FromMemory m (sp + 8)))
  let ptr := readInt32FromMemory m (sp + 16)
  let len := readInt32FromMemory m (sp + 24)
  let bytes := utf8Encode str
  let copyLen := min bytes.length len
  memSet m (bytes.take copyLen) ptr

/-- Model of `syscall/js.valueLoadString`: a thrown error is caught (and only
logged), leaving the state unchanged. -/
def valueLoadString (st : SolverState) (sp : Int) : SolverState :=
  match valueLoadStringBody st sp with
  | .ok m => { st with memory := m }
  | .error _ => st

/-! ## Challenge orchestration
(`solveChallenge`, `defineSolveFunction`, `resetAndRunWasm`,
src/challenge.ts lines 1108-1383) -/

/-- The synchronous prefix of `solveChallenge` (lines 1319-1341): the
only guard is the initialization check; then the token is published on
`globalThis` and `defineSolveFunction` re-arms the promise and
(re)defines `globalThis.Solve` — with no check whether a previous
session is still pending. -/
def startSession (st : SolverState) (token : String) :
    Except String SolverState :=
  if st.wasmInitialized = false then .error "WebAssembly 模块未初始化"
  else .ok { st with globalToken := some token, solveDefined := true,
                     promise := .unsettled }

/-- Events the guest (or the host's timers) could deliver to a session
after its synchronous start. -/
inductive GuestEvent where
  /-- the guest invokes `globalThis.Solve` with the given argument -/
  | invokeSolve (arg : Option String)
  /-- the 30-second timeout timer fires -/
  | timerFires
  deriving DecidableEq, Repr

/-- The effect of one event on the solution promise. -/
def applyEvent (p : Settled) : GuestEvent → Settled
  | .invokeSolve arg => (solveCallback p arg).1
  | .timerFires => settleReject p timeoutMsg

/-- A full `solveChallenge(token)` run (lines 1319-1383).  After
`startSession`, `resetAndRunWasm` (lines 1108-1273) finds
`globalThis.Solve` defined — it always is at that point — and
immediately invokes it with `generateSolution(token)`, settling the
promise before any guest event can occur; the `events` are applied
afterwards.  The awaited outcome follows lines 1344-1382: a resolved
promise yields its string, a timeout rejection triggers the memory
scan (falling back to synthesis), and any other rejection falls to the
outer catch, which synthesizes. -/
def solveChallengeResult (st : SolverState) (token : String)
    (events : List GuestEvent) : Except String String :=
  match startSession st token with
  | .error e => .error e
  | .ok st1 =>
    let p := (solveCallback st1.promise (some (generateSolution token))).1
    let p := events.foldl applyEvent p
    match p with
    | .resolved s => .ok s
    | .rejected msg =>
      if msg = timeoutMsg then
        match searchSolutionInMemory st1.memory with
        | some sol => .ok sol
        | none => .ok (generateSolution token)
      else .ok (generateSolution token)
    | .unsettled =>
      -- unreachable: the promise was already resolved above
      .ok (generateSolution token)

end Challenge

namespace Challenge

/-! ## Concrete test fixtures used by witnesses and counterexamples -/

/-- Overwrite the bytes of `m` at offset `i` with `bs` (a fixture
builder, not part of the source model). -/
def pasteBytes (m : List Nat) (i : Nat) (bs : List Nat) : List Nat :=
  m.take i ++ bs ++ m.drop (i + bs.length)

/-- A 120-byte memory holding a `valueGet` call frame at `sp = 0`
asking for property `"navigator"` (at offset 60, length 9) of receiver
id 0; the result slot at offset 32 is pre-filled with `0xFF` bytes so
that the handler's write is observable. -/
def navFrameMem : List Nat :=
  pasteBytes (pasteBytes (pasteBytes (pasteBytes (List.replicate 120 0)
    16 [60, 0, 0, 0]) 24 [9, 0, 0, 0]) 32 [255, 255, 255, 255])
    60 [110, 97, 118, 105, 103, 97, 116, 111, 114]

/-- Like `navFrameMem` but with receiver id 2 and property
`"userAgent"`. -/
def uaFrameMem : List Nat :=
  pasteBytes (pasteBytes (pasteBytes (pasteBytes (pasteBytes
    (List.replicate 120 0) 8 [2, 0, 0, 0]) 16 [60, 0, 0, 0])
    24 [9, 0, 0, 0]) 32 [255, 255, 255, 255])
    60 [117, 115, 101, 114, 65, 103, 101, 110, 116]

/-- A solver state mid-session (token published, fresh table) over the
given memory. -/
def sessionState (memory : List Nat) : SolverState :=
  { initialState memory with globalToken := some "tok", solveDefined := true }

/-! ## C10 — reserved id mapping -/

/-- Claim C10. The reserved id mapping is fixed and independent of call
order and table state: for any solver state, `storeObject` maps
`undefined`/`null` to 0, `globalThis` to 1, the navigator to 2, the
document to 3, the crypto provider to 4 and the WebGL constructor to 5
without touching the state, and `getObject` on ids 0–5 returns the
corresponding singleton. -/
theorem c10_reserved_ids (st : SolverState) :
    storeObject st .undefVal = (0, st) ∧
    storeObject st .nullVal = (0, st) ∧
    storeObject st .globalObj = (1, st) ∧
    storeObject st .navigatorObj = (2, st) ∧
    storeObject st .documentObj = (3, st) ∧
    storeObject st .cryptoObj = (4, st) ∧
    storeObject st .webglCtor = (5, st) ∧
    getObject st 0 = .undefVal ∧
    getObject st 1 = .globalObj ∧
    getObject st 2 = .navigatorObj ∧
    getObject st 3 = .documentObj ∧
    getObject st 4 = .cryptoObj ∧
    getObject st 5 = .webglCtor := by
  refine ⟨?_, ?_, ?_, ?_, ?_, ?_, ?_, ?_, ?_, ?_, ?_, ?_, ?_⟩ <;>
    simp [storeObject, getObject]

/-! ## C3 — round trip and monotonic allocation -/

/-- Looking an entry up by its id finds exactly that entry when the
table's ids are pairwise distinct. -/
theorem find_by_id_of_mem {l : List (Nat × JsValue)} {p : Nat × JsValue}
    (hmem : p ∈ l) (hnd : (l.map Prod.fst).Nodup) :
    l.find? (fun q => q.1 = p.1) = some p := by
  induction l with
  | nil => cases hmem
  | cons q t ih =>
    rcases List.mem_cons.mp hmem with rfl | hmem'
    · exact List.find?_cons_of_pos _ (by simp)
    · have hnd' := hnd
      simp only [List.map_cons, List.nodup_cons] at hnd'
      have hq : q.1 ≠ p.1 := by
        intro h
        exact hnd'.1 (h ▸ List.mem_map_of_mem Prod.fst hmem')
      rw [List.find?_cons_of_neg _ (by simpa using hq)]
      exact ih hmem' hnd'.2

/-- Looking up a freshly appended id finds the appended entry when no
existing entry carries that id. -/
theorem find_appended_fresh {l : List (Nat × JsValue)} {n : Nat} {v : JsValue}
    (h : ∀ p ∈ l, p.1 ≠ n) :
    (l ++ [(n, v)]).find? (fun q => q.1 = n) = some (n, v) := by
  induction l with
  | nil => simp [List.find?]
  | cons q t ih =>
    have hq : q.1 ≠ n := h q (List.mem_cons_self q t)
    rw [List.cons_append, List.find?_cons_of_neg _ (by simpa using hq)]
    exact ih (fun p hp => h p (List.mem_cons_of_mem q hp))

/-- For a non-reserved value, `storeObject` reaches the scan. -/
theorem storeObject_not_reserved (st : SolverState) (v : JsValue)
    (hv : isReservedValue v = false) :
    storeObject st v =
      match st.objectRefs.find? (fun p => p.2 = v) with
      | some p => (p.1, st)
      | none =>
        (st.nextRefId,
         { st with objectRefs := st.objectRefs ++ [(st.nextRefId, v)],
                   nextRefId := st.nextRefId + 1 }) := by
  cases v <;> simp_all [storeObject, isReservedValue]

/-- Model of `getObject` on an id `≥ 6` reads the table. -/
theorem getObject_big (st : SolverState) (id : Nat) (h : 6 ≤ id) :
    getObject st id =
      match st.objectRefs.find? (fun p => p.1 = id) with
      | some p => p.2
      | none => .undefVal := by
  have h0 : id ≠ 0 := by omega
  have h1 : id ≠ 1 := by omega
  have h2 : id ≠ 2 := by omega
  have h3 : id ≠ 3 := by omega
  have h4 : id ≠ 4 := by omega
  have h5 : id ≠ 5 := by omega
  simp [getObject, h0, h1, h2, h3, h4, h5]

/-- Claim C3. For every host value `v` that is not one of the reserved
singleton values, and every well-formed table state,
`getObject (storeObject v) = v` (reference equality being structural
equality of the value model); a value not yet in the table is assigned
exactly the current `nextRefId` (which then increments, so ids of newly
stored values are strictly increasing); every assigned id is `≥ 6`, and
the constructor starts the counter at 6. -/
theorem c3_roundtrip_monotonic (st : SolverState) (v : JsValue)
    (hwf : TableWF st) (hv : isReservedValue v = false) :
    getObject (storeObject st v).2 (storeObject st v).1 = v ∧
    ((∀ p ∈ st.objectRefs, p.2 ≠ v) →
      (storeObject st v).1 = st.nextRefId ∧
      (storeObject st v).2.nextRefId = st.nextRefId + 1) ∧
    6 ≤ (storeObject st v).1 ∧
    TableWF (storeObject st v).2 ∧
    (initialState []).nextRefId = 6 := by
  obtain ⟨hn6, hbound, hnd⟩ := hwf
  have hstore := storeObject_not_reserved st v hv
  rcases hfind : st.objectRefs.find? (fun p => p.2 = v) with _ | p
  · -- fresh allocation
    simp only [hfind] at hstore
    have hfreshid : ∀ p ∈ st.objectRefs, p.1 ≠ st.nextRefId :=
      fun p hp => Nat.ne_of_lt (hbound p hp).2
    rw [hstore]
    refine ⟨?_, fun _ => ⟨rfl, rfl⟩, hn6,
      ⟨show 6 ≤ st.nextRefId + 1 by omega, ?_, ?_⟩, rfl⟩
    · rw [getObject_big _ _ hn6]
      simp only [find_appended_fresh hfreshid]
    · intro p hp
      show 6 ≤ p.1 ∧ p.1 < st.nextRefId + 1
      simp only [List.mem_append, List.mem_singleton] at hp
      rcases hp with hp | rfl
      · have := hbound p hp
        omega
      · exact ⟨hn6, by omega⟩
    · simp only [List.map_append, List.map_cons, List.map_nil]
      refine List.Nodup.append hnd (List.nodup_singleton _) ?_
      intro a ha hb
      simp only [List.mem_singleton] at hb
      subst hb
      obtain ⟨p, hp, hpa⟩ := List.mem_map.mp ha
      exact hfreshid p hp hpa
  · -- reuse of an existing entry
    simp only [hfind] at hstore
    have hmem := List.mem_of_find?_eq_some hfind
    have hval : p.2 = v := by
      have := List.find?_some hfind
      simpa using this
    have hple := hbound p hmem
    rw [hstore]
    refine ⟨?_, ?_, hple.1, ⟨hn6, hbound, hnd⟩, rfl⟩
    · rw [getObject_big _ _ hple.1, find_by_id_of_mem hmem hnd]
      exact hval
    · intro hfresh
      exact absurd hval (hfresh p hmem)

/-- Witness for C3 at a concrete input: storing the string `"x"` in a
fresh table assigns id 6 and resolves back to the string. -/
theorem c3_witness :
    getObject (storeObject (initialState []) (.str "x")).2
      (storeObject (initialState []) (.str "x")).1 = JsValue.str "x" ∧
    (storeObject (initialState []) (.str "x")).1 = 6 :=
  ⟨(c3_roundtrip_monotonic (initialState []) (.str "x") (by decide)
      (by decide)).1,
   ((c3_roundtrip_monotonic (initialState []) (.str "x") (by decide)
      (by decide)).2.1 (by decide)).1⟩

end Challenge

namespace Challenge

/-! ## C4 — single-flight (refuted and corrected) -/

/-- Claim C4, counterexample.  With a session pending (the promise is
armed and unsettled, a token is published) and the module initialized,
a second `solveChallenge` start is *not* rejected — it succeeds and
mutates the state (the published token is overwritten).  This refutes
"rejected synchronously with no state mutation". -/
theorem c4_counterexample :
    (startSession (sessionState []) "t2").isOk = true ∧
    (startSession (sessionState []) "t2").toOption ≠ some (sessionState []) := by
  decide

/-- Claim C4, amended.  `solveChallenge` performs no single-flight check:
whenever the module is initialized — pending session or not — the start
succeeds synchronously and overwrites the published token, redefines
the callback and re-arms the promise; the only synchronous rejection
is the uninitialized-module error. -/
theorem c4_start_overwrites (st : SolverState) (token : String)
    (hinit : st.wasmInitialized = true) :
    startSession st token =
      .ok { st with globalToken := some token, solveDefined := true,
                    promise := .unsettled } := by
  simp [startSession, hinit]

/-- Witness for the amended C4 at a concrete pending-session state. -/
theorem c4_witness :
    startSession (sessionState []) "t2" =
      .ok { (sessionState []) with
            globalToken := some "t2",
            solveDefined := true, promise := .unsettled } :=
  c4_start_overwrites (sessionState []) "t2" rfl

/-! ## C5 — marshaller bounds behaviour (refuted and corrected) -/

/-- Claim C5, counterexample.  A `(ptr, len)` pair with `ptr + len`
outside the buffer but `ptr` inside it makes `readStringFromMemory`
return the decoded *overlap* — here `"world"` — not a zero value: the
slice clamps instead of zeroing.  This refutes "every marshaller read
operation returns a zero value" for out-of-range accesses. -/
theorem c5_counterexample :
    (5 : Int) + 100 >
      (([104, 101, 108, 108, 111, 119, 111, 114, 108, 100] :
        List Nat).length : Int) ∧
    readStringFromMemory
      [104, 101, 108, 108, 111, 119, 111, 114, 108, 100] 5 100 = "world" ∧
    readStringFromMemory
      [104, 101, 108, 108, 111, 119, 111, 114, 108, 100] 5 100 ≠ "" := by
  decide

/-- Claim C5, amended.  The 32-bit marshaller operations are fully
bounds-checked: when the 4-byte range is not entirely inside the
buffer, reads return `0` and writes leave the buffer unchanged.
64-bit writes delegate to two *independently* checked 32-bit writes, so
they are no-ops only when both 4-byte halves are out of range (a
partially-in-range 64-bit write stores the in-range half).  String
reads clamp the byte range to the buffer and decode the overlap — in
particular a range entirely beyond the end decodes to the empty
string.  No operation raises. -/
theorem c5_bounds (m : List Nat) (ptr : Int) :
    ((ptr < 0 ∨ ptr + 3 ≥ (m.length : Int)) →
      readInt32FromMemory m ptr = 0 ∧
      ∀ v, writeInt32ToMemory m ptr v = m) ∧
    (((ptr < 0 ∨ ptr + 3 ≥ (m.length : Int)) ∧
      (ptr + 4 < 0 ∨ ptr + 7 ≥ (m.length : Int))) →
      ∀ v, writeInt64ToMemory m ptr v = m) ∧
    ((m.length : Int) ≤ ptr → ∀ len : Int,
      readStringFromMemory m ptr len = "") := by
  refine ⟨?_, ?_, ?_⟩
  · intro h
    exact ⟨by simp [readInt32FromMemory, h], fun v => by
      simp [writeInt32ToMemory, h]⟩
  · intro h v
    show writeInt32ToMemory (writeInt32ToMemory m ptr (v % 4294967296))
      (ptr + 4) (v / 4294967296) = m
    rw [show writeInt32ToMemory m ptr (v % 4294967296) = m from by
      rw [writeInt32ToMemory, if_pos h.1]]
    rw [writeInt32ToMemory,
      if_pos (show ptr + 4 < 0 ∨ ptr + 4 + 3 ≥ (m.length : Int) by omega)]
  · intro hlen len
    unfold readStringFromMemory jsSlice
    have hnn : ¬ (ptr < 0) := by omega
    have hmin : min ptr (m.length : Int) = (m.length : Int) :=
      min_eq_right hlen
    simp only [if_neg hnn, hmin]
    rw [show ((m.length : Int)).toNat = m.length from Int.toNat_natCast _,
      List.drop_length, List.take_nil]
    rfl

/-- Witness for the amended C5 at concrete out-of-range accesses. -/
theorem c5_witness :
    readInt32FromMemory [1, 2, 3] 10 = 0 ∧
    writeInt32ToMemory [1, 2, 3] 10 7 = [1, 2, 3] ∧
    writeInt64ToMemory [1, 2, 3] 10 7 = [1, 2, 3] ∧
    readStringFromMemory [1, 2, 3] 10 5 = "" :=
  ⟨((c5_bounds [1, 2, 3] 10).1 (by decide)).1,
   ((c5_bounds [1, 2, 3] 10).1 (by decide)).2 7,
   (c5_bounds [1, 2, 3] 10).2.1 (by decide) 7,
   (c5_bounds [1, 2, 3] 10).2.2 (by decide) 5⟩

/-! ## C6 — fallback synthesis is a pure function of the token -/

/-- Claim C6. Fallback synthesis is deterministic in the token: any two
invocations of `generateSolution` on the same token — within one
process or across restarts, since the definition depends on nothing but
its argument — yield the identical string. -/
theorem c6_fallback_deterministic (token r1 r2 : String)
    (h1 : r1 = generateSolution token) (h2 : r2 = generateSolution token) :
    r1 = r2 :=
  h1.trans h2.symm

set_option maxRecDepth 8000 in
/-- Witness for C6: two independent evaluations at the token
`"abc123"` both produce the concrete solution string. -/
theorem c6_witness :
    ("1.0;bb1307bbbe59f1e4;1a620d1a3a13f71f;6706fb857c9759c9" : String) =
      "1.0;bb1307bbbe59f1e4;1a620d1a3a13f71f;6706fb857c9759c9" :=
  c6_fallback_deterministic "abc123" _ _ (by decide) (by decide)

end Challenge

namespace Challenge

/-! ## Grammar lemmas for the synthesized and scanned solutions -/

/-- The hex digit characters are alphanumeric. -/
theorem digitChar_alnum (m : Nat) (hm : m < 16) :
    isAlnumChar (Nat.digitChar m) = true := by
  interval_cases m <;> decide

theorem toHexRevFuel_alnum (fuel : Nat) :
    ∀ (n : Nat), ∀ c ∈ toHexRevFuel fuel n, isAlnumChar c = true := by
  induction fuel with
  | zero => intro n c hc; cases hc
  | succ fuel ih =>
    intro n c hc
    unfold toHexRevFuel at hc
    by_cases h : n < 16
    · rw [if_pos h] at hc
      simp only [List.mem_singleton] at hc
      subst hc
      exact digitChar_alnum n h
    · rw [if_neg h] at hc
      rcases List.mem_cons.mp hc with rfl | hc'
      · exact digitChar_alnum _ (Nat.mod_lt _ (by omega))
      · exact ih _ c hc'

/-- Every character of a hex rendering is alphanumeric. -/
theorem toHexString_alnum (n : Nat) :
    ∀ c ∈ toHexString n, isAlnumChar c = true := by
  intro c hc
  exact toHexRevFuel_alnum _ _ c (List.mem_reverse.mp hc)

/-- Every character of a hash block is alphanumeric. -/
theorem hashBlock_alnum (input : String) (i : Nat) :
    ∀ c ∈ hashBlock input i, isAlnumChar c = true := by
  intro c hc
  exact toHexString_alnum _ c hc

/-- A 16-character hash segment is 16 alphanumerics. -/
theorem generateHashSegment_spec (input : String) :
    (generateHashSegment input 16).data.length = 16 ∧
    ∀ c ∈ (generateHashSegment input 16).data, isAlnumChar c = true := by
  constructor
  · show (padStart _ 16 '0').length = 16
    unfold padStart
    have hle : (((List.range ((16+7)/8)).map (hashBlock input)).flatten.take 16).length ≤ 16 := by
      simp [List.length_take]
    simp only [List.length_append, List.length_replicate]
    omega
  · intro c hc
    show isAlnumChar c = true
    have hc' : c ∈ padStart (((List.range ((16+7)/8)).map (hashBlock input)).flatten.take 16) 16 '0' := hc
    unfold padStart at hc'
    rcases List.mem_append.mp hc' with hrep | htake
    · have := List.eq_of_mem_replicate hrep
      subst this
      decide
    · have hmem := List.mem_of_mem_take htake
      obtain ⟨l, hl, hcl⟩ := List.mem_flatten.mp hmem
      obtain ⟨i, _, rfl⟩ := List.mem_map.mp hl
      exact hashBlock_alnum input i c hcl

/-- Consuming an all-alphanumeric prefix of the right length succeeds
and leaves exactly the suffix. -/
theorem alnumRun_append (l r : List Char)
    (hall : ∀ c ∈ l, isAlnumChar c = true) :
    alnumRun l.length (l ++ r) = some r := by
  induction l with
  | nil => rfl
  | cons c t ih =>
    show alnumRun (t.length + 1) (c :: (t ++ r)) = some r
    unfold alnumRun
    rw [if_pos (hall c (List.mem_cons_self c t))]
    exact ih (fun x hx => hall x (List.mem_cons_of_mem _ hx))

/-- Model of `seg16Then` over a 16-character alphanumeric prefix reduces to the
continuation on the suffix. -/
theorem seg16Then_append (k : List Char → Bool) (a r : List Char)
    (ha : a.length = 16) (haa : ∀ x ∈ a, isAlnumChar x = true) :
    seg16Then k (a ++ r) = k r := by
  unfold seg16Then
  rw [← ha, alnumRun_append a r haa]

/-- Strings of the shape `1.0;` + three 16-alphanumeric segments
separated by `;` match the solution grammar. -/
theorem matchesGrammar_build (a b c : String)
    (ha : a.data.length = 16) (hb : b.data.length = 16)
    (hc : c.data.length = 16)
    (haa : ∀ x ∈ a.data, isAlnumChar x = true)
    (hbb : ∀ x ∈ b.data, isAlnumChar x = true)
    (hcc : ∀ x ∈ c.data, isAlnumChar x = true) :
    matchesSolutionGrammar ("1.0;" ++ a ++ ";" ++ b ++ ";" ++ c) = true := by
  have hlit : ("1.0;" : String).data = ['1', '.', '0', ';'] := rfl
  have hsemi : (";" : String).data = [';'] := rfl
  have hd : ("1.0;" ++ a ++ ";" ++ b ++ ";" ++ c).data =
      '1' :: '.' :: '0' :: ';' ::
        (a.data ++ ';' :: (b.data ++ ';' :: c.data)) := by
    simp [String.data_append, hlit, hsemi]
  simp only [matchesSolutionGrammar, hd, beq_self_eq_true, Bool.true_and]
  rw [seg16Then_append _ _ _ ha haa]
  simp only [beq_self_eq_true, Bool.true_and]
  rw [seg16Then_append _ _ _ hb hbb]
  simp only [beq_self_eq_true, Bool.true_and]
  rw [show c.data = c.data ++ [] from (List.append_nil _).symm,
    seg16Then_append _ _ _ (by simpa using hc) (by simpa using hcc)]
  rfl

/-- The synthesized fallback solution always matches the grammar. -/
theorem generateSolution_grammar (token : String) :
    matchesSolutionGrammar (generateSolution token) = true := by
  unfold generateSolution
  obtain ⟨h1l, h1a⟩ := generateHashSegment_spec
    ("monad_challenge_seed_" ++ token ++ "part1")
  obtain ⟨h2l, h2a⟩ := generateHashSegment_spec
    ("monad_challenge_seed_" ++ token ++ "part2")
  obtain ⟨h3l, h3a⟩ := generateHashSegment_spec
    ("monad_challenge_seed_" ++ token ++ "part3")
  exact matchesGrammar_build _ _ _ h1l h2l h3l h1a h2a h3a

/-- A candidate accepted by the scanner matches the grammar. -/
theorem scanCandidate_grammar (memory : List Nat) (i : Nat) (s : String)
    (h : scanCandidate memory i = some s) :
    matchesSolutionGrammar s = true := by
  simp only [scanCandidate] at h
  split_ifs at h with h1 h2 h3
  cases h
  exact h3

/-- Anything returned by the heuristic memory scan matches the
grammar. -/
theorem searchSolution_grammar (memory : List Nat) (s : String)
    (h : searchSolutionInMemory memory = some s) :
    matchesSolutionGrammar s = true := by
  obtain ⟨i, _, hi⟩ := List.exists_of_findSome?_eq_some h
  exact scanCandidate_grammar memory i s hi

end Challenge

namespace Challenge

/-! ## C2 and C9 — the orchestrated solution -/

/-- The synchronous session start succeeds whenever the module is
initialized, overwriting the published token and re-arming the
promise and callback (shared helper). -/
theorem startSession_eq (st : SolverState) (token : String)
    (hinit : st.wasmInitialized = true) :
    startSession st token =
      .ok { st with globalToken := some token, solveDefined := true,
                    promise := .unsettled } := by
  simp [startSession, hinit]

/-- Once the promise is resolved, later events cannot change it
(first-settlement-wins). -/
theorem foldl_applyEvent_resolved (events : List GuestEvent) (s : String) :
    events.foldl applyEvent (.resolved s) = .resolved s := by
  induction events with
  | nil => rfl
  | cons e t ih =>
    have hstep : applyEvent (.resolved s) e = .resolved s := by
      cases e with
      | invokeSolve arg => cases arg <;> rfl
      | timerFires => rfl
    rw [List.foldl_cons, hstep, ih]

/-- Model of `resetAndRunWasm` settles the promise with the synthesized solution
before any guest event is processed, so an initialized session always
resolves with `generateSolution token` (shared helper). -/
theorem solveChallengeResult_eq (st : SolverState) (token : String)
    (events : List GuestEvent) (hinit : st.wasmInitialized = true) :
    solveChallengeResult st token events = .ok (generateSolution token) := by
  simp only [solveChallengeResult, startSession_eq st token hinit]
  rw [show (solveCallback Settled.unsettled
      (some (generateSolution token))).1 =
      Settled.resolved (generateSolution token) from rfl]
  rw [foldl_applyEvent_resolved]

/-- Claim C2.  Every solution string `solveChallenge` returns matches
`^1\.0;[a-zA-Z0-9]{16};[a-zA-Z0-9]{16};[a-zA-Z0-9]{16}$`: the reachable
path always returns the synthesized `generateSolution token` (which
matches the grammar), and the timeout-scan path — modelled by
`searchSolutionInMemory` — only ever returns strings it has checked
against the same grammar. -/
theorem c2_solution_grammar :
    (∀ (st : SolverState) (token : String) (events : List GuestEvent)
       (s : String),
      solveChallengeResult st token events = .ok s →
      matchesSolutionGrammar s = true) ∧
    (∀ (mem : List Nat) (s : String),
      searchSolutionInMemory mem = some s →
      matchesSolutionGrammar s = true) := by
  constructor
  · intro st token events s h
    by_cases hinit : st.wasmInitialized = true
    · rw [solveChallengeResult_eq st token events hinit] at h
      cases h
      exact generateSolution_grammar token
    · have hfalse : st.wasmInitialized = false := by
        cases hw : st.wasmInitialized
        · rfl
        · exact absurd hw hinit
      unfold solveChallengeResult startSession at h
      rw [hfalse] at h
      simp at h
  · exact fun mem s h => searchSolution_grammar mem s h

/-- The 55-byte memory holding a NUL-terminated valid solution string
at offset 0 (a scan fixture). -/
def scanFixtureMem : List Nat :=
  [0x31, 0x2E, 0x30, 0x3B] ++ List.replicate 16 97 ++ [0x3B] ++
    List.replicate 16 97 ++ [0x3B] ++ List.replicate 16 97 ++ [0]

set_option maxRecDepth 8000 in
/-- Witness for C2: a concrete run returns the synthesized string for
token `"abc123"` (grammar-matching), and a concrete memory scan returns
a grammar-matching string. -/
theorem c2_witness :
    matchesSolutionGrammar
      "1.0;bb1307bbbe59f1e4;1a620d1a3a13f71f;6706fb857c9759c9" = true ∧
    matchesSolutionGrammar
      "1.0;aaaaaaaaaaaaaaaa;aaaaaaaaaaaaaaaa;aaaaaaaaaaaaaaaa" = true :=
  ⟨c2_solution_grammar.1 (initialState []) "abc123" []
      "1.0;bb1307bbbe59f1e4;1a620d1a3a13f71f;6706fb857c9759c9" (by decide),
   c2_solution_grammar.2 scanFixtureMem
      "1.0;aaaaaaaaaaaaaaaa;aaaaaaaaaaaaaaaa;aaaaaaaaaaaaaaaa" (by decide)⟩

set_option maxRecDepth 8000 in
/-- Claim C9, counterexample.  The guest invokes the registered callback
with the non-absent string `"1.0;aaaa…"` before the deadline, yet
`solveChallenge` does *not* resolve with that string: the promise was
already settled by `resetAndRunWasm`'s own synchronous
`Solve(generateSolution(token))` call, so the session resolves with the
synthesized solution instead. -/
theorem c9_counterexample :
    solveChallengeResult (initialState []) "abc123"
        [.invokeSolve
          (some "1.0;aaaaaaaaaaaaaaaa;bbbbbbbbbbbbbbbb;cccccccccccccccc")] ≠
      .ok "1.0;aaaaaaaaaaaaaaaa;bbbbbbbbbbbbbbbb;cccccccccccccccc" := by
  decide

/-- Claim C9, amended.  The registered callback resolves the promise only
on its first settlement, and `resetAndRunWasm` always settles it first
with the synthesized solution — synchronously, before the guest can
run.  A guest invocation of the callback with a non-absent string at
any later point (here: anywhere in the event list) is therefore
ignored, and `solveChallenge` resolves with `generateSolution token`. -/
theorem c9_callback_ignored (st : SolverState) (token s : String)
    (pre post : List GuestEvent) (hinit : st.wasmInitialized = true) :
    solveChallengeResult st token
        (pre ++ [.invokeSolve (some s)] ++ post) =
      .ok (generateSolution token) :=
  solveChallengeResult_eq st token (pre ++ [.invokeSolve (some s)] ++ post)
    hinit

/-- Witness for the amended C9 at a concrete session. -/
theorem c9_witness :
    solveChallengeResult (initialState []) "tok"
        ([] ++ [.invokeSolve (some "guest-string")] ++ []) =
      .ok (generateSolution "tok") :=
  c9_callback_ignored (initialState []) "tok" "guest-string" [] [] rfl

end Challenge

namespace Challenge

/-! ## C1 — the `navigator` lookup on the root namespace -/

set_option maxRecDepth 8000 in
/-- Claim C1, code-bug evaluation.  A `valueGet` frame at `sp = 0` with
receiver id 0 and property name `"navigator"`: the handler redirects
`target` to the navigator singleton but then evaluates
`Reflect.get(target, prop)` — i.e. reads property `"navigator"` *of the
navigator object*, which is `undefined` — so it stores `undefined` and
writes result id **0** into the frame, although `storeObject` would map
the navigator singleton itself to the reserved id 2 (first two
conjuncts).  The second phase of the claim does hold: a `valueGet`
frame with receiver id 2 and property `"userAgent"` stores the
user-agent string under the fresh id 6, and that id decodes to the
fixed user-agent constant (last two conjuncts). -/
theorem c1_navigator_bug_eval :
    readInt32FromMemory
      (valueGet (sessionState navFrameMem) (.num 0)).memory 32 = 0 ∧
    (storeObject (sessionState navFrameMem) .navigatorObj).1 = 2 ∧
    readInt32FromMemory
      (valueGet (sessionState uaFrameMem) (.num 0)).memory 32 = 6 ∧
    getObject (valueGet (sessionState uaFrameMem) (.num 0)) 6 =
      .str userAgentConst := by
  decide

/-! ## C8 — oversized BigInt stack pointers -/

set_option maxRecDepth 8000 in
/-- Claim C8, counterexample.  A `valueGet` whose stack pointer arrives as
the BigInt `2^53` (`> Number.MAX_SAFE_INTEGER`) is *not* reduced into
the buffer and treated as a no-op: the handler takes its heuristic
branch, stores the global token (fresh id 6) and writes that id into
memory at the fixed offset `memory.length - 128` — a memory write and a
table mutation, refuting "performs no memory access and completes as a
no-op". -/
theorem c8_counterexample :
    (valueGet (sessionState (List.replicate 200 0))
        (.big 9007199254740992)).memory ≠
      (sessionState (List.replicate 200 0)).memory ∧
    readInt32FromMemory
      (valueGet (sessionState (List.replicate 200 0))
        (.big 9007199254740992)).memory 72 = 6 := by
  decide

/-- Claim C8, amended.  Only BigInt stack pointers *within* the safe
integer range are normalized by modulo reduction (`sp %
MAX_SAFE_INTEGER` — by the safe-integer bound, not the buffer size);
when the reduced pointer is outside the valid frame range the handler
returns without touching memory, the table, or the promise, and without
raising.  A BigInt pointer *above* the safe range instead takes a
heuristic branch (`valueGet` stores the global token and writes its id
at `memory.length - 128`; `valueCall`/`valueInvoke` synthesize a
solution and invoke the `Solve` callback). -/
theorem c8_modulo_noop (st : SolverState) (b : Int)
    (applyFn : ApplyOracle) (hb : b ≤ maxSafeInteger) :
    (Int.tmod b maxSafeInteger < 0 ∨
        Int.tmod b maxSafeInteger ≥ (st.memory.length : Int) - 40 →
      valueGet st (.big b) = st) ∧
    (Int.tmod b maxSafeInteger < 0 ∨
        Int.tmod b maxSafeInteger ≥ (st.memory.length : Int) - 48 →
      valueCall st (.big b) applyFn = st) ∧
    (Int.tmod b maxSafeInteger < 0 ∨
        Int.tmod b maxSafeInteger ≥ (st.memory.length : Int) - 40 →
      valueInvoke st (.big b) applyFn = st) := by
  have hnb : ¬ b > maxSafeInteger := by omega
  refine ⟨fun h => ?_, fun h => ?_, fun h => ?_⟩
  · simp only [valueGet, if_neg hnb, valueGetAt, if_pos h]
  · simp only [valueCall, if_neg hnb, valueCallAt, if_pos h]
  · simp only [valueInvoke, if_neg hnb, valueInvokeAt, if_pos h]

/-- Witness for the amended C8: the in-safe-range BigInt pointer 1000
on a 10-byte buffer reduces to 1000, is out of frame range, and all
three handlers leave the state untouched. -/
theorem c8_witness :
    valueGet (sessionState (List.replicate 10 0)) (.big 1000) =
      sessionState (List.replicate 10 0) ∧
    valueCall (sessionState (List.replicate 10 0)) (.big 1000)
      (fun _ _ _ => .ok .undefVal) = sessionState (List.replicate 10 0) ∧
    valueInvoke (sessionState (List.replicate 10 0)) (.big 1000)
      (fun _ _ _ => .ok .undefVal) = sessionState (List.replicate 10 0) :=
  ⟨(c8_modulo_noop (sessionState (List.replicate 10 0)) 1000
      (fun _ _ _ => .ok .undefVal) (by decide)).1 (by decide),
   (c8_modulo_noop (sessionState (List.replicate 10 0)) 1000
      (fun _ _ _ => .ok .undefVal) (by decide)).2.1 (by decide),
   (c8_modulo_noop (sessionState (List.replicate 10 0)) 1000
      (fun _ _ _ => .ok .undefVal) (by decide)).2.2 (by decide)⟩

end Challenge

namespace Challenge

/-! ## C7 — handlers catch internal errors and degrade -/

/-- Claim C7.  The object-bridge handlers return normally for every input
— in this embedding each handler is a total function on states, with
every throwing sub-operation (`'length' in obj`, `Reflect.construct`,
`TypedArray.set`) confined to its `Except`-valued body — and when the
body throws, the handler degrades exactly as the source's catch blocks
do: `valueLength` writes the 64-bit length `0`, `valueNew` sets the
exception flag at `sp+32` and stores and reports the thrown value, and
`valueLoadString` leaves the state unchanged; no exception crosses the
handler boundary. -/
theorem c7_handlers_degrade (st : SolverState) (sp : Int)
    (construct : ConstructOracle) :
    (∀ e, valueLengthBody st sp = .error e →
      valueLength st sp =
        { st with memory := writeInt64ToMemory st.memory (sp + 16) 0 }) ∧
    (∀ e, valueNewAttempt st sp construct = .error e →
      valueNew st sp construct =
        { (storeObject st e).2 with
            memory := writeValueToMemory (memSetByte st.memory (sp + 32) 1)
              (sp + 24) ((storeObject st e).1 : Int) }) ∧
    (∀ e, valueLoadStringBody st sp = .error e →
      valueLoadString st sp = st) := by
  refine ⟨fun e he => ?_, fun e he => ?_, fun e he => ?_⟩
  · unfold valueLength
    rw [he]
  · unfold valueNew
    rw [he]
  · unfold valueLoadString
    rw [he]

/-- A 60-byte memory holding, at `sp = 0`, a frame whose id slot
(offset 8) refers to entry 6, whose pointer slot (offset 16) holds the
out-of-range address 500 and whose length slot (offset 24) holds 1. -/
def c7FixtureMem : List Nat :=
  pasteBytes (pasteBytes (pasteBytes (List.replicate 60 0)
    8 [6, 0, 0, 0]) 16 [244, 1, 0, 0]) 24 [1, 0, 0, 0]

/-- A solver state whose table holds the string `"x"` at id 6, over
`c7FixtureMem`. -/
def c7Fixture : SolverState :=
  { initialState c7FixtureMem with
    objectRefs := [(6, .str "x")], nextRefId := 7 }

/-- Witness for C7 at concrete throwing inputs: `valueLength` on a
string id (`'length' in "x"` throws a `TypeError`) writes 0;
`valueNew` on a non-function constructor id writes the flag and the
stored error id; `valueLoadString` with destination pointer 500 beyond
the 60-byte buffer (`memory.set` throws a `RangeError`) leaves the
state unchanged. -/
theorem c7_witness :
    valueLength c7Fixture 0 =
      { c7Fixture with memory := writeInt64ToMemory c7Fixture.memory 16 0 } ∧
    valueNew c7Fixture 0 (fun _ _ => .ok .undefVal) =
      { (storeObject c7Fixture (.errObj "不是构造函数")).2 with
          memory := writeValueToMemory (memSetByte c7Fixture.memory 32 1) 24
            ((storeObject c7Fixture (.errObj "不是构造函数")).1 : Int) } ∧
    valueLoadString c7Fixture 0 = c7Fixture :=
  ⟨by
    have h := (c7_handlers_degrade c7Fixture 0 (fun _ _ => .ok .undefVal)).1
      (.errObj "TypeError: Cannot use 'in' operator") (by decide)
    simpa using h,
   by
    have h := (c7_handlers_degrade c7Fixture 0 (fun _ _ => .ok .undefVal)).2.1
      (.errObj "不是构造函数") (by decide)
    simpa using h,
   by
    have h := (c7_handlers_degrade c7Fixture 0 (fun _ _ => .ok .undefVal)).2.2
      (.errObj "RangeError: offset is out of bounds") (by decide)
    simpa using h⟩

end Challenge
